import Mathlib

/-!
Verification of the error-detection core of the repository
(src `error-detection` module and the observation handler).

The JavaScript/TypeScript source is shallowly embedded: each regular
expression used by the source is translated into an explicit scanning
function over `List Char` with the exact JS semantics it has there
(leftmost match, greedy quantifiers, case-insensitive ASCII folding,
`\b` word boundaries over `[A-Za-z0-9_]`, `.` not matching line
terminators).  Strings are Lean `String`s; `String.data` exposes the
character list.
-/

namespace ErrorDetection

/-- JS `\s` whitespace class (ASCII members plus the Unicode space
code points JS includes). -/
def isJsSpace (c : Char) : Bool :=
  c == ' ' || c == '\t' || c == '\n' || c == '\r' ||
  c.toNat == 11 || c.toNat == 12 ||
  c.toNat == 160 || c.toNat == 5760 ||
  (decide (8192 ≤ c.toNat) && decide (c.toNat ≤ 8202)) ||
  c.toNat == 8232 || c.toNat == 8233 || c.toNat == 8239 ||
  c.toNat == 8287 || c.toNat == 12288 || c.toNat == 65279

/-- JS `\w` word-character class: `[A-Za-z0-9_]`. -/
def isWordChar (c : Char) : Bool :=
  c.isAlpha || c.isDigit || c == '_'

/-- Character class `[:\s]` used by the first exit-code pattern. -/
def isColonSpace (c : Char) : Bool :=
  c == ':' || isJsSpace c

/-- Character class `[A-Z0-9_]` (tail of the all-caps keyword token regex). -/
def isCapsChar (c : Char) : Bool :=
  c.isUpper || c.isDigit || c == '_'

/-- Character class `[\w.-]` of a path segment in the file-path regex. -/
def isSegChar (c : Char) : Bool :=
  isWordChar c || c == '.' || c == '-'

/-- Case-insensitive (ASCII fold, JS `i` flag) literal-prefix match:
returns the remaining suffix when `needle` matches at the front. -/
def stripPrefixCI : List Char → List Char → Option (List Char)
  | [], s => some s
  | _ :: _, [] => none
  | n :: ns, c :: cs => if c.toLower == n.toLower then stripPrefixCI ns cs else none

/-- `parseInt` on a captured digit string. -/
def natOfDigits (ds : List Char) : Nat :=
  ds.foldl (fun a c => a * 10 + (c.toNat - 48)) 0

/-- Leftmost-match driver for an `Option Nat`-valued matcher: try the
matcher at every start position, left to right, as `String.match` does. -/
def scanOptNat (f : List Char → Option Nat) : List Char → Option Nat
  | [] => f []
  | c :: cs =>
    match f (c :: cs) with
    | some n => some n
    | none => scanOptNat f cs

/-- Leftmost-match driver for a boolean matcher (JS `RegExp.test`). -/
def scanBool (f : List Char → Bool) : List Char → Bool
  | [] => f []
  | c :: cs => f (c :: cs) || scanBool f cs

/-- Match attempt of `/exit code[:\s]+(\d+)/i` at a fixed position:
the literal, then a non-empty greedy run of `[:\s]`, then a non-empty
greedy run of digits (the capture).  The two runs use disjoint
character classes, so greedy matching needs no backtracking. -/
def tryExitColonAt (s : List Char) : Option Nat :=
  match stripPrefixCI "exit code".data s with
  | none => none
  | some rest =>
    let sep := rest.span isColonSpace
    if sep.1.isEmpty then none
    else
      let ds := sep.2.span Char.isDigit
      if ds.1.isEmpty then none else some (natOfDigits ds.1)

/-- Match attempt of `/exited with code (\d+)/i` at a fixed position. -/
def tryExitedWithAt (s : List Char) : Option Nat :=
  match stripPrefixCI "exited with code ".data s with
  | none => none
  | some rest =>
    let ds := rest.span Char.isDigit
    if ds.1.isEmpty then none else some (natOfDigits ds.1)

/-- Match attempt of `/returned (\d+)/i` at a fixed position. -/
def tryReturnedAt (s : List Char) : Option Nat :=
  match stripPrefixCI "returned ".data s with
  | none => none
  | some rest =>
    let ds := rest.span Char.isDigit
    if ds.1.isEmpty then none else some (natOfDigits ds.1)

/-- `response.match(/exit code[:\s]+(\d+)/i)`, first capture as a number. -/
def scanExit1 : List Char → Option Nat := scanOptNat tryExitColonAt

/-- `response.match(/exited with code (\d+)/i)`, first capture as a number. -/
def scanExit2 : List Char → Option Nat := scanOptNat tryExitedWithAt

/-- `response.match(/returned (\d+)/i)`, first capture as a number. -/
def scanExit3 : List Char → Option Nat := scanOptNat tryReturnedAt

/-- `EXIT_CODE_PATTERNS`, in source order. -/
def exitPatternScans : List (List Char → Option Nat) :=
  [scanExit1, scanExit2, scanExit3]

/-- The `for` loop of `detectBashError` over `EXIT_CODE_PATTERNS`:
`if (match && parseInt(match[1]) !== 0) return` — a pattern that
matches with capture `0` is skipped and the loop continues. -/
def firstNonzeroExitAux : List (List Char → Option Nat) → List Char → Option Nat
  | [], _ => none
  | p :: ps, s =>
    match p s with
    | some n => if n != 0 then some n else firstNonzeroExitAux ps s
    | none => firstNonzeroExitAux ps s

/-- First exit-code pattern (in priority order) matching with a
non-zero captured value. -/
def firstNonzeroExit (s : List Char) : Option Nat :=
  firstNonzeroExitAux exitPatternScans s

/-- `/error:/i` test. -/
def kwErrorColon (s : List Char) : Bool := scanBool (fun t => (stripPrefixCI "error:".data t).isSome) s

/-- `/ERR!/i` test. -/
def kwErrBang (s : List Char) : Bool := scanBool (fun t => (stripPrefixCI "err!".data t).isSome) s

/-- Alternation words of the task-failure keyword pattern. -/
def taskWords : List (List Char) :=
  ["build".data, "test".data, "command".data, "process".data,
   "task".data, "job".data, "compilation".data]

/-- Match attempt of `/(?:build|test|command|process|task|job|compilation)\s+failed/i`
at a fixed position: one alternation word, a non-empty greedy run of
`\s`, then `failed` (the run and the literal `f` are disjoint, so
greediness needs no backtracking). -/
def tryTaskFailedAt (s : List Char) : Bool :=
  taskWords.any fun w =>
    match stripPrefixCI w s with
    | none => false
    | some rest =>
      let sp := rest.span isJsSpace
      !sp.1.isEmpty && (stripPrefixCI "failed".data sp.2).isSome

/-- Task-failure keyword pattern test. -/
def kwTaskFailed (s : List Char) : Bool := scanBool tryTaskFailedAt s

/-- `/exception/i` test. -/
def kwException (s : List Char) : Bool := scanBool (fun t => (stripPrefixCI "exception".data t).isSome) s

/-- The `for` loop of `detectBashError` over `ERROR_KEYWORD_PATTERNS`:
any of the four tests fires (first match returns; all matches produce
the same result, so the loop's verdict is the disjunction). -/
def errorKeywordTest (s : List Char) : Bool :=
  kwErrorColon s || kwErrBang s || kwTaskFailed s || kwException s

/-- Case-insensitive substring test (`/lit/i.test(s)` for a plain literal). -/
def containsCI (needle : List Char) : List Char → Bool
  | [] => (stripPrefixCI needle []).isSome
  | c :: cs => (stripPrefixCI needle (c :: cs)).isSome || containsCI needle cs

/-- After a `.*`, search for a case-insensitive literal without crossing a
line terminator (JS `.` does not match `\n` or `\r`). -/
def searchCIBeforeNewline (w : List Char) : List Char → Bool
  | [] => (stripPrefixCI w []).isSome
  | c :: cs =>
    (stripPrefixCI w (c :: cs)).isSome ||
    (!(c == '\n' || c == '\r') && searchCIBeforeNewline w cs)

/-- Test of `/w1.*w2/i`: some position matches `w1` and is followed,
with no line terminator between, by a match of `w2`. -/
def dotStarTest (w1 w2 : List Char) : List Char → Bool
  | [] =>
    (match stripPrefixCI w1 [] with
     | some rest => searchCIBeforeNewline w2 rest
     | none => false)
  | c :: cs =>
    (match stripPrefixCI w1 (c :: cs) with
     | some rest => searchCIBeforeNewline w2 rest
     | none => false) ||
    dotStarTest w1 w2 cs

/-- `ERROR_TYPE_PATTERNS`: ordered `(matcher, tag)` catalog from the source.
`/TypeError/i` etc. are case-insensitive literal substring tests; the
`pip`/`cargo`/`tsc` entries use `.*` between the two literals. -/
def ERROR_TYPE_PATTERNS : List ((List Char → Bool) × String) :=
  [(containsCI "typeerror".data, "TypeError"),
   (containsCI "syntaxerror".data, "SyntaxError"),
   (containsCI "referenceerror".data, "ReferenceError"),
   (containsCI "modulenotfounderror".data, "ModuleNotFoundError"),
   (containsCI "npm err!".data, "npm"),
   (dotStarTest "pip".data "error".data, "pip"),
   (dotStarTest "cargo".data "error".data, "cargo"),
   (dotStarTest "tsc".data "error".data, "typescript")]

/-- Maximal runs of `\w` word characters, in order (accumulator holds the
current run reversed). -/
def wordRunsAux : List Char → List Char → List (List Char)
  | [], acc => if acc.isEmpty then [] else [acc.reverse]
  | c :: cs, acc =>
    if isWordChar c then wordRunsAux cs (c :: acc)
    else if acc.isEmpty then wordRunsAux cs []
    else acc.reverse :: wordRunsAux cs []

/-- Maximal runs of `\w` word characters of a text, in order. -/
def wordRuns (s : List Char) : List (List Char) := wordRunsAux s []

/-- Shape `[A-Z][A-Z0-9_]+` of a whole token (length at least 2, uppercase
first character, tail in `[A-Z0-9_]`). -/
def isCapsShape : List Char → Bool
  | [] => false
  | c :: rest => c.isUpper && !rest.isEmpty && rest.all isCapsChar

/-- All matches of `/\b([A-Z][A-Z0-9_]+)\b/g`, in order.

Why this equals the regex: every match starts and ends at a `\b`
boundary and consists of word characters only, so it sits inside a
maximal word-character run; the leading `\b` forces the match to start
at the run's first character; the greedy `[A-Z0-9_]+` extends to the
end of the run unless it hits a character of the run outside
`[A-Z0-9_]` — necessarily a lowercase letter, which is a word
character, so the trailing `\b` fails there and at every backtracking
position inside the run.  Hence a run produces a match exactly when it
wholly has the shape `[A-Z][A-Z0-9_]+`, and then the match is the whole
run.  `g`-mode resumes after the match, i.e. at the next run. -/
def capsTokens (s : List Char) : List (List Char) :=
  (wordRuns s).filter isCapsShape

/-- One step of `/(?:\/[\w.-]+)+(?:\.\w+)?/` at a fixed position starting
with `/`: greedy chain of `/`-plus-non-empty-segment groups.  The
optional `(?:\.\w+)?` suffix can never add characters: after the greedy
chain the next character is not `.` (a `.` would belong to the previous
segment run) — so the match is exactly the chain.  Fuel is the input
length, enough for the structural descent through `span`. -/
def pathChainF : Nat → List Char → Option (List Char × List Char)
  | 0, _ => none
  | fuel + 1, s =>
    match s with
    | '/' :: rest =>
      let sp := rest.span isSegChar
      if sp.1.isEmpty then none
      else
        match pathChainF fuel sp.2 with
        | some pr => some ('/' :: sp.1 ++ pr.1, pr.2)
        | none => some ('/' :: sp.1, sp.2)
    | _ => none

/-- Leftmost match of the file-path regex (`errorMessage.match(...)`,
no `g` flag: first match only). -/
def pathScan : List Char → Option (List Char)
  | [] => none
  | c :: cs =>
    match pathChainF (c :: cs).length (c :: cs) with
    | some pr => some pr.1
    | none => pathScan cs

/-- First substring of the text matching the file-path regex. -/
def pathMatch (s : List Char) : Option (List Char) := pathScan s

/-- JavaScript value reaching the classifier as `tool_response`
(`unknown` at the TS boundary): text, structured data, or absent. -/
inductive JsValue where
  | str (s : String)
  | num (n : Int)
  | boolean (b : Bool)
  | null
  | undefined
  | obj (fields : List (String × JsValue))
  | arr (elems : List JsValue)

/-- Discriminator for `undefined`. -/
def isUndef : JsValue → Bool
  | .undefined => true
  | _ => false

/-- Discriminator for the `typeof x === 'string'` test. -/
def isStringVal : JsValue → Bool
  | .str _ => true
  | _ => false

/-- Hex digit character (lowercase), for `\u00xx` escapes. -/
def hexDigitChar (n : Nat) : Char :=
  if n < 10 then Char.ofNat (48 + n) else Char.ofNat (97 + n - 10)

/-- `JSON.stringify` escaping of one character inside a string literal. -/
def escapeJsonChar (c : Char) : List Char :=
  if c == '"' then ['\\', '"']
  else if c == '\\' then ['\\', '\\']
  else if c == '\n' then ['\\', 'n']
  else if c == '\r' then ['\\', 'r']
  else if c == '\t' then ['\\', 't']
  else if c.toNat == 8 then ['\\', 'b']
  else if c.toNat == 12 then ['\\', 'f']
  else if c.toNat < 32 then
    ['\\', 'u', '0', '0', hexDigitChar (c.toNat / 16), hexDigitChar (c.toNat % 16)]
  else [c]

/-- `JSON.stringify` of a string: quoted and escaped. -/
def quoteJson (s : String) : String :=
  ⟨'"' :: (s.data.flatMap escapeJsonChar) ++ ['"']⟩

mutual

/-- `JSON.stringify` on a `JsValue`.  In JS a top-level `undefined`
stringifies to the non-string value `undefined`; the embedded code
never serializes one (it is replaced by `''` first), so the value
chosen here for that unreachable case is irrelevant. -/
def jsonStr : JsValue → String
  | .str s => quoteJson s
  | .num n => toString n
  | .boolean b => if b then "true" else "false"
  | .null => "null"
  | .undefined => "null"
  | .obj fs => "\x7b" ++ String.intercalate "," (jsonFieldPieces fs) ++ "\x7d"
  | .arr es => "[" ++ String.intercalate "," (jsonElemPieces es) ++ "]"

/-- Object members; fields with `undefined` values are dropped, as
`JSON.stringify` does. -/
def jsonFieldPieces : List (String × JsValue) → List String
  | [] => []
  | (k, v) :: rest =>
    if isUndef v then jsonFieldPieces rest
    else (quoteJson k ++ ":" ++ jsonStr v) :: jsonFieldPieces rest

/-- Array elements; `undefined` elements serialize as `null`, as
`JSON.stringify` does. -/
def jsonElemPieces : List JsValue → List String
  | [] => []
  | v :: rest =>
    (if isUndef v then "null" else jsonStr v) :: jsonElemPieces rest

end

/-- `JSON.stringify` entry point used by the classifier. -/
def jsonStringify (v : JsValue) : String := jsonStr v

/-- Coercion of `tool_response` to text:
`typeof r === 'string' ? r : JSON.stringify(r ?? '')`.
`??` substitutes `''` for `null` and `undefined` only. -/
def coerceResponse (v : JsValue) : String :=
  match v with
  | .str s => s
  | .null => jsonStringify (.str "")
  | .undefined => jsonStringify (.str "")
  | v => jsonStringify v

/-- `ErrorDetectionResult` of the source. -/
structure ErrorDetectionResult where
  isError : Bool
  errorMessage : Option String
  exitCode : Option Nat
  deriving DecidableEq, Repr

/-- `ErrorFeatures` of the source. -/
structure ErrorFeatures where
  errorType : String
  keywords : List String
  filePath : Option String
  deriving DecidableEq, Repr

/-- `detectBashError`: scoped to the `Bash` tool; coerces the response to
text, tries the exit-code patterns (skipping zero captures), then the
keyword patterns. -/
def detectBashError (tool_name : String) (tool_response : JsValue) : ErrorDetectionResult :=
  if tool_name ≠ "Bash" then ⟨false, none, none⟩
  else
    let response := coerceResponse tool_response
    match firstNonzeroExit response.data with
    | some n => ⟨true, some response, some n⟩
    | none =>
      if errorKeywordTest response.data then ⟨true, some response, none⟩
      else ⟨false, none, none⟩

/-- `extractErrorFeatures`: first matching catalog entry's tag (else
`"unknown"`), all-caps tokens longer than 3 characters, and the first
path-shaped substring. -/
def extractErrorFeatures (errorMessage : String) : ErrorFeatures :=
  let s := errorMessage.data
  let errorType :=
    match ERROR_TYPE_PATTERNS.find? (fun pt => pt.1 s) with
    | some pt => pt.2
    | none => "unknown"
  let keywords := ((capsTokens s).filter (fun k => k.length > 3)).map (fun k => (⟨k⟩ : String))
  let filePath := (pathMatch s).map (fun p => (⟨p⟩ : String))
  ⟨errorType, keywords, filePath⟩

/-- JS truthiness of an optional string field (`!x` is true for
`undefined`, `null` and the empty string). -/
def truthyStr : Option String → Bool
  | some s => s != ""
  | none => false

/-- JS falsiness of a `JsValue` (`x || ''` replaces these by `''`):
`undefined`, `null`, `''`, `0`, `false`. -/
def jsFalsy : JsValue → Bool
  | .undefined => true
  | .null => true
  | .str s => s == ""
  | .num n => n == 0
  | .boolean b => !b
  | _ => false

/-- Hook invocation input (`NormalizedHookInput` fields the handler uses). -/
structure HookInput where
  sessionId : Option String
  cwd : Option String
  toolName : Option String
  toolInput : Option String
  toolResponse : JsValue

/-- Network requests the handler can issue to the worker. -/
inductive WorkerRequest where
  | postObservation (sessionId : Option String) (toolName : String)
      (toolInput : Option String) (toolResponse : JsValue) (cwd : String)
  | postError (sessionId : Option String) (errorMessage : Option String)
      (errorType : String) (keywords : List String) (filePath : Option String)
      (command : Option String) (cwd : String)
  | getSimilar (errorMessage : String)

/-- Outcome of the similar-errors query (external collaborator):
the fetch throws, responds non-ok, or returns a list of records, each
carrying an optional `metadata.title`. -/
inductive SimilarOutcome where
  | threw
  | notOk
  | ok (titles : List (Option String))

/-- `HookResult` returned on success. -/
structure HookOutcome where
  continueFlag : Bool
  suppressOutput : Bool
  deriving DecidableEq, Repr

/-- Formatting of the similar-error context block
(`- **${title || 'Error'}**` lines joined by newlines). -/
def formatSimilar (titles : List (Option String)) : String :=
  String.intercalate "\n"
    (titles.map (fun t =>
      "- **" ++ (match t with
                 | some s => if s != "" then s else "Error"
                 | none => "Error") ++ "**"))

/-- `observationHandler.execute`, embedded as a pure function.  External
effects are explicit: `ensureOk` is whether `ensureWorkerRunning`
succeeds, `obsOk` whether the observation POST responds ok, `similar`
the similar-errors query outcome.  The result is the thrown error or
the `HookResult`, together with the worker requests issued before any
throw and the console context output (if printed). -/
def observationExecute (input : HookInput) (ensureOk obsOk : Bool)
    (similar : SimilarOutcome) :
    Except String HookOutcome × List WorkerRequest × Option String :=
  if !ensureOk then (.error "ensureWorkerRunning failed", [], none)
  else if !truthyStr input.toolName then
    (.error "observationHandler requires toolName", [], none)
  else if !truthyStr input.cwd then
    (.error "Missing cwd in PostToolUse hook input", [], none)
  else
    let toolName := input.toolName.getD ""
    let cwd := input.cwd.getD ""
    let obsReq := WorkerRequest.postObservation input.sessionId toolName
      input.toolInput input.toolResponse cwd
    if !obsOk then (.error "Observation storage failed", [obsReq], none)
    else
      let respVal := if jsFalsy input.toolResponse then JsValue.str "" else input.toolResponse
      let errorResult := detectBashError toolName respVal
      if errorResult.isError then
        let features := extractErrorFeatures (errorResult.errorMessage.getD "")
        let errReq := WorkerRequest.postError input.sessionId errorResult.errorMessage
          features.errorType features.keywords features.filePath input.toolInput cwd
        let simReq := WorkerRequest.getSimilar (errorResult.errorMessage.getD "")
        let output :=
          match similar with
          | .ok titles =>
            if titles.isEmpty then none
            else some ("\n## 相关历史错误\n" ++ formatSimilar titles ++ "\n")
          | _ => none
        (.ok ⟨true, true⟩, [obsReq, errReq, simReq], output)
      else (.ok ⟨true, true⟩, [obsReq], none)

/-- Follows the spec's words (4.1 plus classifier step 3): the captured
values of the exit-code patterns, in priority order, and the first
non-zero one among them. -/
def firstNonzeroExitSpec (s : List Char) : Option Nat :=
  ([scanExit1 s, scanExit2 s, scanExit3 s].filterMap id).find? (fun n => n != 0)

lemma firstNonzeroExitAux_cons (p : List Char → Option Nat)
    (ps : List (List Char → Option Nat)) (s : List Char) :
    firstNonzeroExitAux (p :: ps) s =
      match p s with
      | some n => if n != 0 then some n else firstNonzeroExitAux ps s
      | none => firstNonzeroExitAux ps s := rfl

lemma firstNonzeroExitAux_eq_find (ps : List (List Char → Option Nat)) (s : List Char) :
    firstNonzeroExitAux ps s =
      ((ps.map (fun p => p s)).filterMap id).find? (fun n => n != 0) := by
  induction ps with
  | nil => rfl
  | cons p ps ih =>
    cases hp : p s with
    | none => simpa [firstNonzeroExitAux_cons, hp] using ih
    | some n =>
      by_cases hn : n = 0
      · subst hn
        simp only [firstNonzeroExitAux_cons, hp, bne_self_eq_false, Bool.false_eq_true,
          if_false, List.map_cons, List.filterMap_cons, id_eq, List.find?_cons,
          bne_self_eq_false]
        exact ih
      · have hn' : (n != 0) = true := by simpa using hn
        simp only [firstNonzeroExitAux_cons, hp, hn', if_true, List.map_cons,
          List.filterMap_cons, id_eq, List.find?_cons]

lemma firstNonzeroExit_eq_spec (s : List Char) :
    firstNonzeroExit s = firstNonzeroExitSpec s := by
  have := firstNonzeroExitAux_eq_find exitPatternScans s
  simpa [firstNonzeroExit, firstNonzeroExitSpec, exitPatternScans] using this

lemma firstNonzeroExitAux_some {ps : List (List Char → Option Nat)} {s : List Char} {n : Nat}
    (h : firstNonzeroExitAux ps s = some n) :
    n ≠ 0 ∧ ∃ p, p ∈ ps ∧ p s = some n := by
  induction ps with
  | nil => simp [firstNonzeroExitAux] at h
  | cons p ps ih =>
    rw [firstNonzeroExitAux_cons] at h
    cases hp : p s with
    | none =>
      rw [hp] at h
      obtain ⟨hn, q, hq, hqs⟩ := ih h
      exact ⟨hn, q, List.mem_cons_of_mem _ hq, hqs⟩
    | some m =>
      simp only [hp] at h
      by_cases hm : m = 0
      · subst hm
        simp only [bne_self_eq_false, Bool.false_eq_true, if_false] at h
        obtain ⟨hn, q, hq, hqs⟩ := ih h
        exact ⟨hn, q, List.mem_cons_of_mem _ hq, hqs⟩
      · have hm' : (m != 0) = true := by simpa using hm
        rw [if_pos hm'] at h
        have hmn : m = n := by simpa using h
        subst hmn
        exact ⟨hm, p, List.mem_cons_self _ _, hp⟩

lemma firstNonzeroExitAux_none {ps : List (List Char → Option Nat)} {s : List Char}
    (h : ∀ p ∈ ps, (p s).all (fun m => m == 0) = true) :
    firstNonzeroExitAux ps s = none := by
  induction ps with
  | nil => rfl
  | cons p ps ih =>
    rw [firstNonzeroExitAux_cons]
    cases hp : p s with
    | none => exact ih fun q hq => h q (List.mem_cons_of_mem _ hq)
    | some m =>
      have hm := h p (List.mem_cons_self _ _)
      rw [hp] at hm
      simp [Option.all] at hm
      subst hm
      simp only [bne_self_eq_false, Bool.false_eq_true, if_false]
      exact ih fun q hq => h q (List.mem_cons_of_mem _ hq)

lemma detect_result_cases (tn : String) (v : JsValue) :
    detectBashError tn v = ⟨false, none, none⟩ ∨
    (detectBashError tn v = ⟨true, some (coerceResponse v), none⟩) ∨
    (∃ n, n ≠ 0 ∧ detectBashError tn v = ⟨true, some (coerceResponse v), some n⟩) := by
  unfold detectBashError
  by_cases h : tn ≠ "Bash"
  · simp [h]
  · rw [if_neg (by simpa using h)]
    cases hx : firstNonzeroExit (coerceResponse v).data with
    | some n =>
      right; right
      have hn := (firstNonzeroExitAux_some hx).1
      exact ⟨n, hn, by simp [hx]⟩
    | none =>
      by_cases hk : errorKeywordTest (coerceResponse v).data
      · right; left; simp [hx, hk]
      · left; simp [hx, hk]

lemma find?_eq_of_first {α : Type} (p : α → Bool) :
    ∀ (l : List α) (i : Nat) (hi : i < l.length),
      p (l.get ⟨i, hi⟩) = true →
      (∀ j (hj : j < l.length), j < i → p (l.get ⟨j, hj⟩) = false) →
      l.find? p = some (l.get ⟨i, hi⟩)
  | [], i, hi => by simp at hi
  | a :: l, 0, _ => by
    intro hp _
    simp at hp
    simp [List.find?, hp]
  | a :: l, i + 1, hi => by
    intro hp hb
    have ha : p a = false := by
      have := hb 0 (by simp) (Nat.succ_pos i)
      simpa using this
    have hi' : i < l.length := by simpa using hi
    have hrec := find?_eq_of_first p l i hi'
      (by simpa using hp)
      (fun j hj hji => by
        have := hb (j + 1) (by simpa using hj) (by omega)
        simpa using this)
    rw [List.find?_cons_of_neg _ (by simp [ha])]
    simpa using hrec

/-- C1: calling the classifier with tool name `"Bash"` and a response text
whose exit-code scan captures a non-zero value yields `isError = true`,
`exitCode` equal to that captured integer, and `errorMessage` equal to the
full response text; the integer is the capture of one of the three
exit-code patterns. -/
theorem claim1_exit_nonzero (s : String) (n : Nat)
    (h : firstNonzeroExit s.data = some n) :
    detectBashError "Bash" (JsValue.str s) = ⟨true, some s, some n⟩ ∧ n ≠ 0 ∧
      (scanExit1 s.data = some n ∨ scanExit2 s.data = some n ∨ scanExit3 s.data = some n) := by
  obtain ⟨hn, p, hp, hps⟩ := firstNonzeroExitAux_some h
  refine ⟨?_, hn, ?_⟩
  · rw [detectBashError, if_neg (by simp)]
    have hresp : coerceResponse (JsValue.str s) = s := rfl
    simp only [hresp, h]
  · simp only [exitPatternScans, List.mem_cons, List.not_mem_nil, or_false] at hp
    rcases hp with h1 | h2 | h3
    · exact Or.inl (h1 ▸ hps)
    · exact Or.inr (Or.inl (h2 ▸ hps))
    · exact Or.inr (Or.inr (h3 ▸ hps))

/-- C1 witness: concrete run on `"Exit code: 1"`. -/
theorem claim1_exit_nonzero_witness :
    detectBashError "Bash" (JsValue.str "Exit code: 1") =
        ⟨true, some "Exit code: 1", some 1⟩ ∧ (1 : Nat) ≠ 0 ∧
      (scanExit1 "Exit code: 1".data = some 1 ∨ scanExit2 "Exit code: 1".data = some 1 ∨
        scanExit3 "Exit code: 1".data = some 1) :=
  claim1_exit_nonzero "Exit code: 1" 1 (by decide)

/-- C2 counterexample: in `"exit code: 0 returned 5"` the first pattern in
priority order that matches is the first one, and it captures exactly zero;
no keyword pattern matches the text, so the claim predicts `isError = false`.
The code instead keeps scanning the remaining exit-code patterns and
classifies the text as an error with exit code 5. -/
theorem claim2_counterexample :
    detectBashError "Bash" (JsValue.str "exit code: 0 returned 5") =
      ⟨true, some "exit code: 0 returned 5", some 5⟩ ∧
    scanExit1 "exit code: 0 returned 5".data = some 0 ∧
    scanExit3 "exit code: 0 returned 5".data = some 5 ∧
    errorKeywordTest "exit code: 0 returned 5".data = false := by
  refine ⟨by decide, by decide, by decide, by decide⟩

/-- C2 (amended): the exit-signal verdict is decided by the first pattern,
in the fixed priority order, that matches with a NON-ZERO captured value;
a pattern matching with capture zero is skipped and the later exit-code
patterns are still tried; only when no pattern captures a non-zero value
does the classifier derive no error from the exit-code path and proceed to
keyword scanning of the same full text. -/
theorem claim2_first_nonzero_priority (s : String) :
    detectBashError "Bash" (JsValue.str s) =
      match firstNonzeroExitSpec s.data with
      | some n => ⟨true, some s, some n⟩
      | none =>
        if errorKeywordTest s.data then ⟨true, some s, none⟩
        else ⟨false, none, none⟩ := by
  rw [detectBashError, if_neg (by simp), ← firstNonzeroExit_eq_spec]
  rfl

/-- C3: with tool name `"Bash"`, when no exit-code pattern captures a
non-zero value but one of the four keyword patterns matches, the result is
`isError = true` with the full text as `errorMessage` and no `exitCode`. -/
theorem claim3_keyword_error (s : String)
    (h1 : (scanExit1 s.data).all (fun m => m == 0) = true)
    (h2 : (scanExit2 s.data).all (fun m => m == 0) = true)
    (h3 : (scanExit3 s.data).all (fun m => m == 0) = true)
    (hk : (kwErrorColon s.data || kwErrBang s.data || kwTaskFailed s.data ||
      kwException s.data) = true) :
    detectBashError "Bash" (JsValue.str s) = ⟨true, some s, none⟩ := by
  have hnone : firstNonzeroExit s.data = none := by
    apply firstNonzeroExitAux_none
    intro p hp
    simp only [exitPatternScans, List.mem_cons, List.not_mem_nil, or_false] at hp
    rcases hp with h | h | h <;> subst h <;> assumption
  rw [detectBashError, if_neg (by simp)]
  have hresp : coerceResponse (JsValue.str s) = s := rfl
  simp only [hresp, hnone]
  rw [show errorKeywordTest s.data = true from hk, if_pos rfl]

/-- C3 witness: concrete run on `"error: boom"`. -/
theorem claim3_keyword_error_witness :
    detectBashError "Bash" (JsValue.str "error: boom") = ⟨true, some "error: boom", none⟩ :=
  claim3_keyword_error "error: boom" (by decide) (by decide) (by decide) (by decide)

/-- C4: for any tool name other than `"Bash"` the classifier returns
`isError = false` regardless of the response. -/
theorem claim4_non_bash_never_error (tn : String) (v : JsValue) (h : tn ≠ "Bash") :
    detectBashError tn v = ⟨false, none, none⟩ := by
  rw [detectBashError, if_pos h]

/-- C4 witness: a `Read` response containing an error keyword is not flagged. -/
theorem claim4_non_bash_never_error_witness :
    detectBashError "Read" (JsValue.str "Error: file not found") = ⟨false, none, none⟩ :=
  claim4_non_bash_never_error "Read" (JsValue.str "Error: file not found") (by decide)

/-- C5: every classification result satisfies the invariants:
`isError = false` implies both optional fields absent; `errorMessage`
present iff `isError`; `exitCode` present implies it is non-zero and
`isError = true`. -/
theorem claim5_result_invariants (tn : String) (v : JsValue) :
    ((detectBashError tn v).isError = false →
      (detectBashError tn v).errorMessage = none ∧ (detectBashError tn v).exitCode = none) ∧
    ((detectBashError tn v).errorMessage.isSome ↔ (detectBashError tn v).isError = true) ∧
    (∀ n, (detectBashError tn v).exitCode = some n →
      n ≠ 0 ∧ (detectBashError tn v).isError = true) := by
  rcases detect_result_cases tn v with h | h | ⟨n, hn, h⟩
  · rw [h]
    refine ⟨fun _ => ⟨rfl, rfl⟩, by simp, ?_⟩
    intro m hm
    simp at hm
  · rw [h]
    refine ⟨by simp, by simp, ?_⟩
    intro m hm
    simp at hm
  · rw [h]
    refine ⟨by simp, by simp, ?_⟩
    intro m hm
    simp only [Option.some_inj] at hm
    subst hm
    exact ⟨hn, rfl⟩

/-- C5 witness: concrete check of the exit-code conjunct at
`"returned 5"`. -/
theorem claim5_result_invariants_witness :
    (5 : Nat) ≠ 0 ∧ (detectBashError "Bash" (JsValue.str "returned 5")).isError = true :=
  (claim5_result_invariants "Bash" (JsValue.str "returned 5")).2.2 5 (by decide)

/-- C6 counterexample: the claim says serialization of an undefined/absent
`toolResponse` yields the empty string; the code computes
`JSON.stringify(undefined ?? '')`, which is the two-character text
consisting of two double-quote characters, not the empty string. -/
theorem claim6_counterexample :
    coerceResponse JsValue.undefined ≠ "" ∧
    coerceResponse JsValue.undefined = "\"\"" := by
  refine ⟨by decide, by decide⟩

/-- C6 (amended): a text response is used as-is, and a non-text response is
serialized without failing; an undefined/absent (or null) response is first
replaced by the empty string, whose JSON serialization is the two-character
text of two double-quote characters, so scanning for an undefined response
operates on that two-character text (which matches no pattern, so the
result is not an error). -/
theorem claim6_coercion :
    (∀ s : String, coerceResponse (JsValue.str s) = s) ∧
    coerceResponse JsValue.undefined = "\"\"" ∧
    coerceResponse JsValue.null = "\"\"" ∧
    detectBashError "Bash" JsValue.undefined = ⟨false, none, none⟩ := by
  refine ⟨fun s => rfl, rfl, rfl, by decide⟩

/-- C7: the extracted keywords are exactly the all-caps-shaped tokens
(`[A-Z][A-Z0-9_]+` whole word runs) of length at least 4, in order of
appearance, duplicates retained, with no case normalization (every kept
keyword still has the all-caps shape). -/
theorem claim7_keyword_extraction (msg : String) :
    (extractErrorFeatures msg).keywords =
      ((capsTokens msg.data).filter (fun k => 4 ≤ k.length)).map (fun k => (⟨k⟩ : String)) ∧
    (∀ k, k ∈ (extractErrorFeatures msg).keywords →
      isCapsShape k.data = true ∧ 4 ≤ k.data.length) ∧
    List.Sublist (extractErrorFeatures msg).keywords
      ((wordRuns msg.data).map (fun k => (⟨k⟩ : String))) := by
  have hfeq : (capsTokens msg.data).filter (fun k => k.length > 3) =
      (capsTokens msg.data).filter (fun k => 4 ≤ k.length) := by
    apply List.filter_congr
    intro x _
    simp only [decide_eq_decide]
    omega
  have hkw : (extractErrorFeatures msg).keywords =
      ((capsTokens msg.data).filter (fun k => 4 ≤ k.length)).map (fun k => (⟨k⟩ : String)) := by
    simp only [extractErrorFeatures]
    rw [hfeq]
  refine ⟨hkw, ?_, ?_⟩
  · intro k hk
    rw [hkw] at hk
    simp only [List.mem_map] at hk
    obtain ⟨t, ht, rfl⟩ := hk
    simp only [List.mem_filter] at ht
    obtain ⟨htc, hlen⟩ := ht
    have hshape : isCapsShape t = true := (List.mem_filter.mp htc).2
    exact ⟨hshape, by simpa using hlen⟩
  · rw [hkw]
    apply List.Sublist.map
    have h1 : List.Sublist ((capsTokens msg.data).filter (fun k => 4 ≤ k.length))
        (capsTokens msg.data) := List.filter_sublist _
    have h2 : List.Sublist (capsTokens msg.data) (wordRuns msg.data) :=
      List.filter_sublist _
    exact h1.trans h2

/-- C7 witness: scenario F — `"ERR ABC LONGCODE"` keeps only `LONGCODE`,
which has the all-caps shape and length at least 4. -/
theorem claim7_keyword_extraction_witness :
    isCapsShape "LONGCODE".data = true ∧ 4 ≤ "LONGCODE".data.length :=
  (claim7_keyword_extraction "ERR ABC LONGCODE").2.1 "LONGCODE" (by decide)

/-- C8: the error type is the tag of the first catalog pattern (in the
fixed order) matching the text, the sentinel `"unknown"` when none
matches, and `extractErrorFeatures "npm ERR! code ENOENT"` yields
`errorType = "npm"`. -/
theorem claim8_error_type_catalog (msg : String) :
    ((∀ pt ∈ ERROR_TYPE_PATTERNS, pt.1 msg.data = false) →
      (extractErrorFeatures msg).errorType = "unknown") ∧
    (∀ i (hi : i < ERROR_TYPE_PATTERNS.length),
      (ERROR_TYPE_PATTERNS.get ⟨i, hi⟩).1 msg.data = true →
      (∀ j (hj : j < ERROR_TYPE_PATTERNS.length), j < i →
        (ERROR_TYPE_PATTERNS.get ⟨j, hj⟩).1 msg.data = false) →
      (extractErrorFeatures msg).errorType = (ERROR_TYPE_PATTERNS.get ⟨i, hi⟩).2) ∧
    (extractErrorFeatures "npm ERR! code ENOENT").errorType = "npm" := by
  refine ⟨?_, ?_, by decide⟩
  · intro hall
    have hnone : ERROR_TYPE_PATTERNS.find? (fun pt => pt.1 msg.data) = none := by
      rw [List.find?_eq_none]
      intro pt hpt
      simp [hall pt hpt]
    simp only [extractErrorFeatures, hnone]
  · intro i hi hp hb
    have hfind := find?_eq_of_first (fun pt => pt.1 msg.data) ERROR_TYPE_PATTERNS i hi hp hb
    simp only [extractErrorFeatures, hfind]

/-- C8 witness: no-match sentinel on `"all good here"` and the first-match
rule at catalog index 4 on `"npm ERR! code ENOENT"`. -/
theorem claim8_error_type_catalog_witness :
    (extractErrorFeatures "all good here").errorType = "unknown" ∧
    (extractErrorFeatures "npm ERR! code ENOENT").errorType =
      (ERROR_TYPE_PATTERNS.get ⟨4, by decide⟩).2 :=
  ⟨(claim8_error_type_catalog "all good here").1 (by decide),
   (claim8_error_type_catalog "npm ERR! code ENOENT").2.1 4 (by decide) (by decide) (by decide)⟩

/-- C9: when the working-directory field of the invocation context is
absent (or empty, which JS treats the same), the observation workflow
raises an error, and no observation or error record request is issued. -/
theorem claim9_missing_cwd_fatal (input : HookInput) (ensureOk obsOk : Bool)
    (similar : SimilarOutcome) (h : truthyStr input.cwd = false) :
    (∃ e, (observationExecute input ensureOk obsOk similar).1 = Except.error e) ∧
    (observationExecute input ensureOk obsOk similar).2.1 = [] := by
  unfold observationExecute
  cases ensureOk with
  | false => exact ⟨⟨"ensureWorkerRunning failed", rfl⟩, rfl⟩
  | true =>
    cases htn : truthyStr input.toolName with
    | false => simp [htn]
    | true => simp [htn, h]

/-- C9 witness: concrete invocation with `cwd` absent. -/
theorem claim9_missing_cwd_fatal_witness :
    (∃ e, (observationExecute ⟨some "s1", none, some "Bash", some "ls", JsValue.str "ok"⟩
      true true (SimilarOutcome.ok [])).1 = Except.error e) ∧
    (observationExecute ⟨some "s1", none, some "Bash", some "ls", JsValue.str "ok"⟩
      true true (SimilarOutcome.ok [])).2.1 = [] :=
  claim9_missing_cwd_fatal ⟨some "s1", none, some "Bash", some "ls", JsValue.str "ok"⟩
    true true (SimilarOutcome.ok []) (by decide)

/-- C10 counterexample: `null` is a non-string `toolResponse`, but scanning
is not performed over its JSON serialization `"null"`: the code replaces
`null` by the empty string before serializing, so the scanned text is the
two-character text of two double-quote characters. -/
theorem claim10_counterexample :
    isStringVal JsValue.null = false ∧
    jsonStringify JsValue.null = "null" ∧
    coerceResponse JsValue.null ≠ jsonStringify JsValue.null ∧
    coerceResponse JsValue.null = "\"\"" := by
  refine ⟨by decide, by decide, by decide, by decide⟩

/-- C10 (amended): for tool name `"Bash"` and a non-string `toolResponse`
other than `null`/`undefined` (which are replaced by the empty string
before serialization), scanning operates on the JSON serialization of the
value, and whenever the verdict is an error the `errorMessage` is that
JSON text itself; concretely, a keyword marker inside a serialized field
value classifies the invocation as an error with the full JSON text
(quotes, braces and all) as message, and feature extraction then operates
on that JSON syntax. -/
theorem claim10_json_serialization :
    (∀ v : JsValue, isStringVal v = false → v ≠ JsValue.null → v ≠ JsValue.undefined →
      coerceResponse v = jsonStringify v ∧
      ((detectBashError "Bash" v).isError = true →
        (detectBashError "Bash" v).errorMessage = some (jsonStringify v))) ∧
    detectBashError "Bash" (JsValue.obj [("out", JsValue.str "error: ENOENT")]) =
      ⟨true, some "\x7b\"out\":\"error: ENOENT\"\x7d", none⟩ ∧
    extractErrorFeatures "\x7b\"out\":\"error: ENOENT\"\x7d" =
      ⟨"unknown", ["ENOENT"], none⟩ := by
  refine ⟨?_, by decide, by decide⟩
  intro v hs hnull hundef
  have hco : coerceResponse v = jsonStringify v := by
    cases v with
    | str s => simp [isStringVal] at hs
    | null => exact absurd rfl hnull
    | undefined => exact absurd rfl hundef
    | num n => rfl
    | boolean b => rfl
    | obj fs => rfl
    | arr es => rfl
  refine ⟨hco, ?_⟩
  intro he
  rcases detect_result_cases "Bash" v with h | h | ⟨n, hn, h⟩
  · rw [h] at he
    simp at he
  · rw [h, hco]
  · rw [h, hco]

/-- C10 witness: the general conjunct at the structured value `num 7`. -/
theorem claim10_json_serialization_witness :
    coerceResponse (JsValue.num 7) = jsonStringify (JsValue.num 7) :=
  (claim10_json_serialization.1 (JsValue.num 7) (by decide)
    (fun h => JsValue.noConfusion h) (fun h => JsValue.noConfusion h)).1

end ErrorDetection
